import Mathlib

/-!
Shallow embedding of `src/node/src/service.rs` (Diora node service:
mode selection, relay-chain interface construction, consensus wiring and
inherent-data assembly).

External collaborators (substrate client construction, network builder,
task spawner, the in-process relay-chain builder, the relay RPC client,
`ParachainInherentData::create_at`) are not part of this repository; their
outcomes are parameters of the model (the `Env` record and oracle
functions).  Everything else — the branching on role and relay URL, the
error and panic sites, the inherent bundles and the mock-XCM channel
drains — is translated directly from the source.
-/

namespace Diora

/-- Opaque relay-chain endpoint URL (`collator_options.relay_chain_rpc_url`). -/
abbrev Url := String

/-- Opaque handle of the telemetry worker created in `new_partial`. -/
abbrev TelemetryWorkerHandle := Nat

/-- Opaque `polkadot_service::CollatorPair`. -/
abbrev CollatorPair := Nat

/-- Opaque relay-parent hash. -/
abbrev RelayHash := Nat

/-- Opaque `PersistedValidationData`. -/
abbrev PersistedValidationData := Nat

/-- Opaque payload of `cumulus_primitives_parachain_inherent::ParachainInherentData`. -/
abbrev ParachainInherentData := Nat

/-- Opaque `cumulus_primitives_core::ParaId`. -/
abbrev ParaId := Nat

/-- `sc_service::Role` (substrate node role). -/
inductive Role
  | Full
  | Light
  | Authority
deriving DecidableEq, Repr

/-- `Role::is_authority`: true exactly for `Role::Authority`. -/
def Role.is_authority : Role → Bool
  | .Authority => true
  | _ => false

/-- `cumulus_client_cli::CollatorOptions`: the one field used by the service. -/
structure CollatorOptions where
  relay_chain_rpc_url : Option Url
deriving DecidableEq, Repr

/-- The slice of `sc_service::Configuration` the modelled code reads. -/
structure Configuration where
  role : Role
  telemetry_endpoints : Option (List String)
  offchain_worker_enabled : Bool
  force_authoring : Bool
deriving DecidableEq, Repr

/-- `sc_service::error::Error`; the service builds its errors from strings
(`"Light client not supported!".into()`), so one string constructor
covers every value the modelled code produces or propagates. -/
inductive ServiceError
  | Other (msg : String)
deriving DecidableEq, Repr

/-- `cumulus_relay_chain_interface::RelayChainError`, as far as
`start_node_impl` distinguishes it: the
`RelayChainError::ServiceError(polkadot_service::Error::Sub(x))` pattern is
unwrapped to `x`; every other value is stringified. -/
inductive RelayChainError
  | serviceSub (e : ServiceError)
  | other (msg : String)
deriving DecidableEq, Repr

/-- The error mapping applied to `build_relay_chain_interface` failures in
`start_node_impl` (`match e { ServiceError(Sub(x)) => x, s => s.to_string().into() }`). -/
def map_relay_error : RelayChainError → ServiceError
  | .serviceSub x => x
  | .other m => .Other m

/-- The constructed `Arc<dyn RelayChainInterface>`, tagged by which of the two
implementations was built and with what it was built. -/
inductive RelayChainInterface
  | rpcInterface (url : Url)
  | inProcess (telemetry_worker_handle : Option TelemetryWorkerHandle)
deriving DecidableEq, Repr

/-- The part of `sc_service::PartialComponents` the later phases read. -/
structure PartialComponents where
  telemetry_worker_handle : Option TelemetryWorkerHandle
deriving DecidableEq, Repr

/-- Outcomes of the external collaborators invoked during startup.  Each field
is the result of one external call; the orchestration code under
verification branches on these but does not compute them. -/
structure Env where
  /-- Client / backend / pool / import-queue construction inside `new_partial`. -/
  new_partial_result : Except ServiceError Unit
  /-- Identity of the telemetry worker created when endpoints are configured. -/
  telemetry_worker_id : TelemetryWorkerHandle
  /-- `RelayChainRPCInterface::new(url)`. -/
  rpc_connect : Url → Except RelayChainError Unit
  /-- `build_inprocess_relay_chain` (cumulus): on success it yields the
  in-process interface together with a generated collator key. -/
  inprocess_relay_chain : Except RelayChainError CollatorPair
  /-- `sc_service::build_network`. -/
  build_network_result : Except ServiceError Unit
  /-- `sc_service::spawn_tasks`. -/
  spawn_tasks_result : Except ServiceError Unit
  /-- The `build_consensus` closure (NimbusConsensus::build wiring). -/
  build_consensus_result : Except ServiceError Unit
  /-- `cumulus_client_service::start_collator`. -/
  start_collator_result : Except ServiceError Unit
  /-- `cumulus_client_service::start_full_node`. -/
  start_full_node_result : Except ServiceError Unit

/-- `new_partial`: telemetry is created only when the configuration has a
non-empty endpoint list (`telemetry_endpoints.clone().filter(|x| !x.is_empty())`);
the heavy construction work is external (`env.new_partial_result`). -/
def new_partial (config : Configuration) ( _parachain : Bool) (env : Env) :
    Except ServiceError PartialComponents :=
  match env.new_partial_result with
  | .error e => .error e
  | .ok _ =>
    .ok { telemetry_worker_handle :=
            match config.telemetry_endpoints with
            | some endpoints =>
              if endpoints.isEmpty then none else some env.telemetry_worker_id
            | none => none }

/-- `build_relay_chain_interface`: branches on
`collator_options.relay_chain_rpc_url`.  With a URL it builds
`RelayChainRPCInterface::new(relay_chain_url)` and returns no collator key;
without one it calls `build_inprocess_relay_chain` with the shared telemetry
worker handle. -/
def build_relay_chain_interface
    (telemetry_worker_handle : Option TelemetryWorkerHandle)
    (collator_options : CollatorOptions)
    (rpc_connect : Url → Except RelayChainError Unit)
    (inprocess_relay_chain : Except RelayChainError CollatorPair) :
    Except RelayChainError (RelayChainInterface × Option CollatorPair) :=
  match collator_options.relay_chain_rpc_url with
  | some relay_chain_url =>
    match rpc_connect relay_chain_url with
    | .ok _ => .ok (.rpcInterface relay_chain_url, none)
    | .error e => .error e
  | none =>
    match inprocess_relay_chain with
    | .ok collator_key => .ok (.inProcess telemetry_worker_handle, some collator_key)
    | .error e => .error e

/-- Which long-running consensus task a startup path launched. -/
inductive ConsensusTask
  | collator
  | fullNode
  | instantSeal
deriving DecidableEq, Repr

/-- Construction events recorded, in order, as a startup path proceeds. -/
inductive Event
  | partial_components
  | relay_interface (iface : RelayChainInterface)
  | network
  | offchain_workers
  | spawned_tasks
  | consensus_task (t : ConsensusTask)
deriving DecidableEq, Repr

/-- Whether an event is the construction of a relay-chain interface. -/
def Event.is_relay_interface : Event → Bool
  | .relay_interface _ => true
  | _ => false

/-- The running node as returned by a successful startup: which consensus
tasks were started and which relay interface (if any) the node holds. -/
structure NodeHandle where
  tasks : List ConsensusTask
  relay_chain_interface : Option RelayChainInterface
deriving DecidableEq, Repr

/-- Result of a startup path: a running handle, a typed service error, or a
Rust panic (`expect` / `unwrap`). -/
inductive StartOutcome
  | ok (h : NodeHandle)
  | err (e : ServiceError)
  | panic (msg : String)
deriving DecidableEq, Repr

/-- Whether a startup outcome is a panic. -/
def StartOutcome.isPanic : StartOutcome → Bool
  | .panic _ => true
  | _ => false

/-- The `FullDeps` record handed to `crate::rpc::create_full` by the
RPC extensions builder (only the fields the service sets literally). -/
structure FullDeps where
  deny_unsafe_flag : Bool
  is_authority : Bool
  max_past_logs : Nat
  fee_history_limit : Nat
deriving DecidableEq, Repr

/-- The `rpc_extensions_builder` closure of `start_node_impl`: it sets
`let is_authority = false;` regardless of the configured role. -/
def parachain_rpc_full_deps ( _parachain_config : Configuration)
    (deny_unsafe_flag : Bool) : FullDeps :=
  let is_authority := false
  { deny_unsafe_flag := deny_unsafe_flag
    is_authority := is_authority
    max_past_logs := 10000
    fee_history_limit := 2048 }

/-- The `rpc_extensions_builder` closure of `start_instant_seal_node`: the
outer `let is_authority = config.role.is_authority();` is shadowed by
`let is_authority = false;` inside the builder block. -/
def instant_seal_rpc_full_deps ( _config : Configuration)
    (deny_unsafe_flag : Bool) : FullDeps :=
  let is_authority := false
  { deny_unsafe_flag := deny_unsafe_flag
    is_authority := is_authority
    max_past_logs := 10000
    fee_history_limit := 2048 }

/-- `start_node_impl`: the parachain (collator / full-node) startup path.
Sequencing follows the source: Light-role rejection, `new_partial`,
`build_relay_chain_interface`, `build_network`, `spawn_tasks`, then either
the collator branch (build consensus, `collator_key.expect(..)`,
`start_collator`) or `start_full_node`. -/
def start_node_impl (parachain_config : Configuration)
    (collator_options : CollatorOptions) (env : Env) :
    StartOutcome × List Event :=
  if parachain_config.role = Role.Light then
    (.err (.Other "Light client not supported!"), [])
  else
    match new_partial parachain_config true env with
    | .error e => (.err e, [])
    | .ok parts =>
      let trace1 := [Event.partial_components]
      match build_relay_chain_interface parts.telemetry_worker_handle
          collator_options env.rpc_connect env.inprocess_relay_chain with
      | .error e => (.err (map_relay_error e), trace1)
      | .ok (relay_chain_interface, collator_key) =>
        let trace2 := trace1 ++ [Event.relay_interface relay_chain_interface]
        let validator := parachain_config.role.is_authority
        match env.build_network_result with
        | .error e => (.err e, trace2)
        | .ok _ =>
          let trace3 := trace2 ++ [Event.network]
          match env.spawn_tasks_result with
          | .error e => (.err e, trace3)
          | .ok _ =>
            let trace4 := trace3 ++ [Event.spawned_tasks]
            if validator then
              match env.build_consensus_result with
              | .error e => (.err e, trace4)
              | .ok _ =>
                match collator_key with
                | none =>
                  (.panic "Command line arguments do not allow this. qed", trace4)
                | some _ =>
                  match env.start_collator_result with
                  | .error e => (.err e, trace4)
                  | .ok _ =>
                    (.ok { tasks := [.collator]
                           relay_chain_interface := some relay_chain_interface },
                     trace4 ++ [Event.consensus_task .collator])
            else
              match env.start_full_node_result with
              | .error e => (.err e, trace4)
              | .ok _ =>
                (.ok { tasks := [.fullNode]
                       relay_chain_interface := some relay_chain_interface },
                 trace4 ++ [Event.consensus_task .fullNode])

/-- `start_parachain_node` is `start_node_impl` applied with the concrete
consensus builder; the orchestration is identical. -/
def start_parachain_node (parachain_config : Configuration)
    (collator_options : CollatorOptions) (env : Env) :
    StartOutcome × List Event :=
  start_node_impl parachain_config collator_options env

/-- `start_instant_seal_node`: the standalone development path.  No relay
interface is ever built; the instant-seal authoring task is spawned only
when the node is an authority. -/
def start_instant_seal_node (config : Configuration) (env : Env) :
    StartOutcome × List Event :=
  match new_partial config false env with
  | .error e => (.err e, [])
  | .ok _parts =>
    let trace1 := [Event.partial_components]
    match env.build_network_result with
    | .error e => (.err e, trace1)
    | .ok _ =>
      let trace2 :=
        if config.offchain_worker_enabled then
          trace1 ++ [Event.network, Event.offchain_workers]
        else
          trace1 ++ [Event.network]
      let is_authority := config.role.is_authority
      match env.spawn_tasks_result with
      | .error e => (.err e, trace2)
      | .ok _ =>
        let trace3 := trace2 ++ [Event.spawned_tasks]
        if is_authority then
          (.ok { tasks := [.instantSeal], relay_chain_interface := none },
           trace3 ++ [Event.consensus_task .instantSeal])
        else
          (.ok { tasks := [], relay_chain_interface := none }, trace3)

/-- `MockValidationDataInherentDataProvider` as constructed by the
instant-seal inherent closure (the `xcm_config` field is external state and
carries no information the claims inspect). -/
structure MockValidationDataInherentDataProvider where
  current_para_block : Nat
  relay_offset : Nat
  relay_blocks_per_para_block : Nat
  raw_downward_messages : List (List Nat)
  raw_horizontal_messages : List (ParaId × List Nat)
deriving DecidableEq, Repr

/-- One entry of an inherent bundle, in tuple position order. -/
inductive InherentEntry
  | timestamp (now : Nat)
  | parachain_inherent (d : ParachainInherentData)
  | mocked_parachain (m : MockValidationDataInherentDataProvider)
  | nimbus
deriving DecidableEq, Repr

/-- Whether an inherent entry is the mocked validation-data record. -/
def InherentEntry.is_mocked_parachain : InherentEntry → Bool
  | .mocked_parachain _ => true
  | _ => false

/-- Whether an inherent entry is a proof-backed parachain inherent. -/
def InherentEntry.is_parachain_inherent : InherentEntry → Bool
  | .parachain_inherent _ => true
  | _ => false

/-- The `create_inherent_data_providers` closure of the collator consensus
(inside `start_parachain_node`): `ParachainInherentData::create_at` is the
external oracle `create_at`; a `None` result becomes the
"Failed to create parachain inherent" error, otherwise the bundle is
`(time, parachain_inherent, nimbus_inherent)`. -/
def create_inherent_data_providers_collator
    (create_at : RelayHash → PersistedValidationData → Option ParachainInherentData)
    (relay_parent : RelayHash) (validation_data : PersistedValidationData)
    (now : Nat) : Except String (List InherentEntry) :=
  let parachain_inherent := create_at relay_parent validation_data
  match parachain_inherent with
  | none => .error "Failed to create parachain inherent"
  | some pi => .ok [.timestamp now, .parachain_inherent pi, .nimbus]

/-- State of the two mocked XCM flume channels of the instant-seal node. -/
structure MockRelayChannels where
  downward_xcm : List (List Nat)
  hrmp_xcm : List (ParaId × List Nat)
deriving DecidableEq, Repr

/-- `Receiver::drain().collect()`: takes every queued item in FIFO order and
leaves the queue empty. -/
def drain {α : Type} (q : List α) : List α × List α := (q, [])

/-- The `create_inherent_data_providers` closure of the instant-seal node:
wall-clock time plus a `MockValidationDataInherentDataProvider` with all
offset fields zero and both mock channels drained.  Returns the produced
bundle together with the channel state after the drains. -/
def create_inherent_data_providers_instant_seal (now : Nat)
    (channels : MockRelayChannels) :
    List InherentEntry × MockRelayChannels :=
  let (downward_msgs, downward_rest) := drain channels.downward_xcm
  let (hrmp_msgs, hrmp_rest) := drain channels.hrmp_xcm
  let mocked_parachain : MockValidationDataInherentDataProvider :=
    { current_para_block := 0
      relay_offset := 0
      relay_blocks_per_para_block := 0
      raw_downward_messages := downward_msgs
      raw_horizontal_messages := hrmp_msgs }
  ([.timestamp now, .mocked_parachain mocked_parachain],
   { downward_xcm := downward_rest, hrmp_xcm := hrmp_rest })

/-- Concrete environment in which every external collaborator succeeds. -/
def env_ok : Env :=
  { new_partial_result := .ok ()
    telemetry_worker_id := 0
    rpc_connect := fun _ => .ok ()
    inprocess_relay_chain := .ok 7
    build_network_result := .ok ()
    spawn_tasks_result := .ok ()
    build_consensus_result := .ok ()
    start_collator_result := .ok ()
    start_full_node_result := .ok () }

/-- Concrete configuration with the authority role. -/
def cfgAuthority : Configuration :=
  { role := .Authority
    telemetry_endpoints := none
    offchain_worker_enabled := false
    force_authoring := false }

/-- Concrete configuration with the plain full role. -/
def cfgFull : Configuration :=
  { role := .Full
    telemetry_endpoints := none
    offchain_worker_enabled := false
    force_authoring := false }

/-- Concrete configuration with the light role. -/
def cfgLight : Configuration :=
  { role := .Light
    telemetry_endpoints := none
    offchain_worker_enabled := false
    force_authoring := false }

/-- Collator options with a remote relay RPC endpoint configured. -/
def optsRpc : CollatorOptions :=
  { relay_chain_rpc_url := some "ws://127.0.0.1:9944" }

/-- Collator options with no remote relay RPC endpoint. -/
def optsInprocess : CollatorOptions :=
  { relay_chain_rpc_url := none }

end Diora

namespace Diora

/-- A role is an authority exactly when it is `Role.Authority`. -/
theorem role_eq_authority (r : Role) (h : r.is_authority = true) :
    r = Role.Authority := by
  cases r <;> simp [Role.is_authority] at h ⊢

/-- If the relay builder returns an interface with no collator key, the
remote RPC URL must have been configured. -/
theorem relay_ok_none_url (twh : Option TelemetryWorkerHandle)
    (opts : CollatorOptions) (rc : Url → Except RelayChainError Unit)
    (ip : Except RelayChainError CollatorPair) (iface : RelayChainInterface)
    (h : build_relay_chain_interface twh opts rc ip = .ok (iface, none)) :
    opts.relay_chain_rpc_url.isSome = true := by
  unfold build_relay_chain_interface at h
  rcases hurl : opts.relay_chain_rpc_url with _ | url
  · rw [hurl] at h
    rcases hip : ip with e | key <;> rw [hip] at h <;> simp at h
  · simp [hurl]

end Diora

namespace Diora

/-- C3: the relay-adapter builder is deterministic on its mode flag.  With a
configured RPC URL it returns the remote-RPC implementation with no collator
key, its result is independent of the in-process builder (no in-process relay
service is constructed), and without a URL it returns the in-process
implementation built with the shared telemetry worker handle; both are
values of the one `RelayChainInterface` type. -/
theorem build_relay_chain_interface_mode_deterministic
    (twh : Option TelemetryWorkerHandle) (opts : CollatorOptions)
    (rc : Url → Except RelayChainError Unit)
    (ip ip2 : Except RelayChainError CollatorPair) :
    (∀ u, opts.relay_chain_rpc_url = some u →
      (build_relay_chain_interface twh opts rc ip
          = match rc u with
            | .ok _ => .ok (.rpcInterface u, none)
            | .error e => .error e)
      ∧ build_relay_chain_interface twh opts rc ip
          = build_relay_chain_interface twh opts rc ip2)
    ∧ (opts.relay_chain_rpc_url = none →
      build_relay_chain_interface twh opts rc ip
        = match ip with
          | .ok collator_key => .ok (.inProcess twh, some collator_key)
          | .error e => .error e) := by
  constructor
  · intro u hu
    constructor <;> simp [build_relay_chain_interface, hu]
  · intro hn
    simp [build_relay_chain_interface, hn]

/-- Witness for C3 at concrete inputs: a configured URL yields the remote
adapter and no key; no URL yields the in-process adapter carrying the
telemetry worker handle and the generated key. -/
theorem build_relay_chain_interface_mode_deterministic_witness :
    (build_relay_chain_interface (some 3) optsRpc (fun _ => .ok ()) (.ok 7)
        = .ok (.rpcInterface "ws://127.0.0.1:9944", none))
    ∧ (build_relay_chain_interface (some 3) optsInprocess (fun _ => .ok ()) (.ok 7)
        = .ok (.inProcess (some 3), some 7)) :=
  ⟨((build_relay_chain_interface_mode_deterministic (some 3) optsRpc
      (fun _ => .ok ()) (.ok 7) (.ok 7)).1 "ws://127.0.0.1:9944" rfl).1,
   (build_relay_chain_interface_mode_deterministic (some 3) optsInprocess
      (fun _ => .ok ()) (.ok 7) (.ok 7)).2 rfl⟩

/-- C5: every StandaloneDev inherent assembly yields a wall-clock time entry
and a mocked validation-data record whose offset/ordinal fields are all
zero. -/
theorem instant_seal_mock_offsets_zero (now : Nat) (ch : MockRelayChannels) :
    ∃ m, (create_inherent_data_providers_instant_seal now ch).1
        = [InherentEntry.timestamp now, InherentEntry.mocked_parachain m]
      ∧ m.current_para_block = 0
      ∧ m.relay_offset = 0
      ∧ m.relay_blocks_per_para_block = 0 :=
  ⟨_, rfl, rfl, rfl, rfl⟩

/-- C7: in the collator path, when the parachain-inherent computation returns
nothing the per-attempt inherent closure returns the
"Failed to create parachain inherent" error, and when it returns a value the
closure returns the bundle; the error lives in the closure's own result type,
so it fails only that authoring attempt. -/
theorem collator_inherent_none_fails_attempt
    (create_at : RelayHash → PersistedValidationData → Option ParachainInherentData)
    (relay_parent : RelayHash) (validation_data : PersistedValidationData)
    (now : Nat) :
    (create_at relay_parent validation_data = none →
      create_inherent_data_providers_collator create_at relay_parent
          validation_data now
        = .error "Failed to create parachain inherent")
    ∧ ∀ pi, create_at relay_parent validation_data = some pi →
      create_inherent_data_providers_collator create_at relay_parent
          validation_data now
        = .ok [.timestamp now, .parachain_inherent pi, .nimbus] := by
  constructor
  · intro h
    simp [create_inherent_data_providers_collator, h]
  · intro pi h
    simp [create_inherent_data_providers_collator, h]

/-- Witness for C7: with an oracle that returns nothing the attempt fails
with the exact error string; with an oracle returning a value it succeeds. -/
theorem collator_inherent_none_fails_attempt_witness :
    (create_inherent_data_providers_collator (fun _ _ => none) 0 0 5
      = .error "Failed to create parachain inherent")
    ∧ (create_inherent_data_providers_collator (fun _ _ => some 9) 0 0 5
      = .ok [.timestamp 5, .parachain_inherent 9, .nimbus]) :=
  ⟨(collator_inherent_none_fails_attempt (fun _ _ => none) 0 0 5).1 rfl,
   (collator_inherent_none_fails_attempt (fun _ _ => some 9) 0 0 5).2 9 rfl⟩

/-- C8: each StandaloneDev inherent assembly drains both mock XCM queues
completely in FIFO order and leaves them empty, so a second drain with no
intervening append yields empty message lists. -/
theorem mock_channels_drained_completely (n1 n2 : Nat)
    (ch : MockRelayChannels) :
    (∃ m, (create_inherent_data_providers_instant_seal n1 ch).1
        = [InherentEntry.timestamp n1, InherentEntry.mocked_parachain m]
      ∧ m.raw_downward_messages = ch.downward_xcm
      ∧ m.raw_horizontal_messages = ch.hrmp_xcm)
    ∧ (create_inherent_data_providers_instant_seal n1 ch).2
        = { downward_xcm := [], hrmp_xcm := [] }
    ∧ ∃ m2, (create_inherent_data_providers_instant_seal n2
          (create_inherent_data_providers_instant_seal n1 ch).2).1
        = [InherentEntry.timestamp n2, InherentEntry.mocked_parachain m2]
      ∧ m2.raw_downward_messages = []
      ∧ m2.raw_horizontal_messages = [] :=
  ⟨⟨_, rfl, rfl, rfl⟩, rfl, ⟨_, rfl, rfl, rfl⟩⟩

/-- C9: the `FullDeps` record handed to the RPC extensions builder has
`is_authority = false` in both the parachain path and the instant-seal path,
for every configuration (authority roles included). -/
theorem rpc_deps_is_authority_false (cfg : Configuration) (deny_unsafe_flag : Bool) :
    (parachain_rpc_full_deps cfg deny_unsafe_flag).is_authority = false
    ∧ (instant_seal_rpc_full_deps cfg deny_unsafe_flag).is_authority = false :=
  ⟨rfl, rfl⟩

/-- C10: a Light-role configuration is rejected with the typed error
"Light client not supported!" before any construction event is recorded. -/
theorem light_client_rejected_before_construction
    (cfg : Configuration) (opts : CollatorOptions) (env : Env)
    (h : cfg.role = Role.Light) :
    start_node_impl cfg opts env
      = (.err (.Other "Light client not supported!"), []) := by
  simp [start_node_impl, h]

/-- Witness for C10 at a concrete Light configuration. -/
theorem light_client_rejected_before_construction_witness :
    start_node_impl cfgLight optsRpc env_ok
      = (.err (.Other "Light client not supported!"), []) :=
  light_client_rejected_before_construction cfgLight optsRpc env_ok rfl

end Diora

namespace Diora

/-- C1 counterexample: in Collator mode with the authority role and the
remote-RPC relay adapter configured (which yields no collator key), startup
ends in the `collator_key.expect` panic, not in a handle or a typed error —
even though every external collaborator succeeds. -/
theorem start_panics_on_remote_rpc_authority :
    (start_node_impl cfgAuthority optsRpc env_ok).1
      = .panic "Command line arguments do not allow this. qed" := rfl

/-- C1 (amended): startup returns a handle or a typed error in every case
except the missing-collator-key one: a parachain startup can panic only when
the role is Authority and a remote relay RPC URL is configured, and the
standalone startup never panics. -/
theorem start_structured_unless_missing_collator_key
    (cfg : Configuration) (opts : CollatorOptions) (env : Env) :
    ((start_node_impl cfg opts env).1.isPanic = true →
      cfg.role = Role.Authority ∧ opts.relay_chain_rpc_url.isSome = true)
    ∧ (start_instant_seal_node cfg env).1.isPanic = false := by
  constructor
  · intro hp
    cases hrole : cfg.role with
    | Light => simp [start_node_impl, hrole, StartOutcome.isPanic] at hp
    | Full =>
      rcases hurl : opts.relay_chain_rpc_url with _ | url
      · rcases hip : env.inprocess_relay_chain with e | key <;>
        rcases h1 : env.new_partial_result with e1 | u1 <;>
        rcases h2 : env.build_network_result with e2 | u2 <;>
        rcases h3 : env.spawn_tasks_result with e3 | u3 <;>
        rcases h6 : env.start_full_node_result with e6 | u6 <;>
        simp [start_node_impl, new_partial, build_relay_chain_interface,
          map_relay_error, hrole, hurl, hip, h1, h2, h3, h6,
          Role.is_authority, StartOutcome.isPanic] at hp
      · rcases hrc : env.rpc_connect url with e | uu <;>
        rcases h1 : env.new_partial_result with e1 | u1 <;>
        rcases h2 : env.build_network_result with e2 | u2 <;>
        rcases h3 : env.spawn_tasks_result with e3 | u3 <;>
        rcases h6 : env.start_full_node_result with e6 | u6 <;>
        simp [start_node_impl, new_partial, build_relay_chain_interface,
          map_relay_error, hrole, hurl, hrc, h1, h2, h3, h6,
          Role.is_authority, StartOutcome.isPanic] at hp
    | Authority =>
      rcases hurl : opts.relay_chain_rpc_url with _ | url
      · rcases hip : env.inprocess_relay_chain with e | key <;>
        rcases h1 : env.new_partial_result with e1 | u1 <;>
        rcases h2 : env.build_network_result with e2 | u2 <;>
        rcases h3 : env.spawn_tasks_result with e3 | u3 <;>
        rcases h4 : env.build_consensus_result with e4 | u4 <;>
        rcases h5 : env.start_collator_result with e5 | u5 <;>
        simp [start_node_impl, new_partial, build_relay_chain_interface,
          map_relay_error, hrole, hurl, hip, h1, h2, h3, h4, h5,
          Role.is_authority, StartOutcome.isPanic] at hp
      · exact ⟨by simp [hrole], by simp [hurl]⟩
  · rcases h1 : env.new_partial_result with e1 | u1 <;>
    rcases h2 : env.build_network_result with e2 | u2 <;>
    rcases h3 : env.spawn_tasks_result with e3 | u3 <;>
    simp only [start_instant_seal_node, new_partial, h1, h2, h3] <;>
    first
      | rfl
      | (split <;> rfl)

/-- Witness for C1 (amended): at the concrete panicking input the amended
bound holds, and the concrete standalone startup does not panic. -/
theorem start_structured_unless_missing_collator_key_witness :
    (cfgAuthority.role = Role.Authority
      ∧ optsRpc.relay_chain_rpc_url.isSome = true)
    ∧ (start_instant_seal_node cfgAuthority env_ok).1.isPanic = false :=
  ⟨(start_structured_unless_missing_collator_key cfgAuthority optsRpc env_ok).1
      rfl,
   (start_structured_unless_missing_collator_key cfgAuthority optsRpc env_ok).2⟩

end Diora

namespace Diora

/-- C2: exactly one consensus strategy per running instance.  A successful
parachain startup started the collator authoring task when the role is
Authority and the full-node validation task otherwise (never both); a
successful standalone startup spawned the instant-seal authoring task when
the role is Authority and no authoring task at all otherwise. -/
theorem exactly_one_consensus_task
    (cfg : Configuration) (opts : CollatorOptions) (env : Env)
    (h : NodeHandle) :
    ((start_node_impl cfg opts env).1 = .ok h →
      h.tasks = if cfg.role.is_authority then [ConsensusTask.collator]
                else [ConsensusTask.fullNode])
    ∧ ((start_instant_seal_node cfg env).1 = .ok h →
      h.tasks = if cfg.role.is_authority then [ConsensusTask.instantSeal]
                else []) := by
  constructor
  · intro hok
    cases hrole : cfg.role with
    | Light => simp [start_node_impl, hrole] at hok
    | Full =>
      rcases hurl : opts.relay_chain_rpc_url with _ | url
      · rcases hip : env.inprocess_relay_chain with e | key <;>
        rcases h1 : env.new_partial_result with e1 | u1 <;>
        rcases h2 : env.build_network_result with e2 | u2 <;>
        rcases h3 : env.spawn_tasks_result with e3 | u3 <;>
        rcases h6 : env.start_full_node_result with e6 | u6 <;>
        simp_all [start_node_impl, new_partial, build_relay_chain_interface,
          map_relay_error, Role.is_authority] <;>
        subst_vars <;> rfl
      · rcases hrc : env.rpc_connect url with e | uu <;>
        rcases h1 : env.new_partial_result with e1 | u1 <;>
        rcases h2 : env.build_network_result with e2 | u2 <;>
        rcases h3 : env.spawn_tasks_result with e3 | u3 <;>
        rcases h6 : env.start_full_node_result with e6 | u6 <;>
        simp_all [start_node_impl, new_partial, build_relay_chain_interface,
          map_relay_error, Role.is_authority] <;>
        subst_vars <;> rfl
    | Authority =>
      rcases hurl : opts.relay_chain_rpc_url with _ | url
      · rcases hip : env.inprocess_relay_chain with e | key <;>
        rcases h1 : env.new_partial_result with e1 | u1 <;>
        rcases h2 : env.build_network_result with e2 | u2 <;>
        rcases h3 : env.spawn_tasks_result with e3 | u3 <;>
        rcases h4 : env.build_consensus_result with e4 | u4 <;>
        rcases h5 : env.start_collator_result with e5 | u5 <;>
        simp_all [start_node_impl, new_partial, build_relay_chain_interface,
          map_relay_error, Role.is_authority] <;>
        subst_vars <;> rfl
      · rcases hrc : env.rpc_connect url with e | uu <;>
        rcases h1 : env.new_partial_result with e1 | u1 <;>
        rcases h2 : env.build_network_result with e2 | u2 <;>
        rcases h3 : env.spawn_tasks_result with e3 | u3 <;>
        rcases h4 : env.build_consensus_result with e4 | u4 <;>
        simp_all [start_node_impl, new_partial, build_relay_chain_interface,
          map_relay_error, Role.is_authority]
  · intro hok
    cases hrole : cfg.role <;>
    rcases h1 : env.new_partial_result with e1 | u1 <;>
    rcases h2 : env.build_network_result with e2 | u2 <;>
    rcases h3 : env.spawn_tasks_result with e3 | u3 <;>
    simp_all [start_instant_seal_node, new_partial, Role.is_authority] <;>
    subst_vars <;> rfl

/-- Witness for C2: the concrete authority parachain run with the in-process
relay started exactly the collator task, and the concrete authority
standalone run started exactly the instant-seal task. -/
theorem exactly_one_consensus_task_witness :
    (({ tasks := [ConsensusTask.collator],
        relay_chain_interface := some (.inProcess none) } : NodeHandle).tasks
      = if cfgAuthority.role.is_authority then [ConsensusTask.collator]
        else [ConsensusTask.fullNode])
    ∧ (({ tasks := [ConsensusTask.instantSeal],
          relay_chain_interface := none } : NodeHandle).tasks
      = if cfgAuthority.role.is_authority then [ConsensusTask.instantSeal]
        else []) :=
  ⟨(exactly_one_consensus_task cfgAuthority optsInprocess env_ok
      { tasks := [ConsensusTask.collator],
        relay_chain_interface := some (.inProcess none) }).1 rfl,
   (exactly_one_consensus_task cfgAuthority optsInprocess env_ok
      { tasks := [ConsensusTask.instantSeal],
        relay_chain_interface := none }).2 rfl⟩

/-- C4: the standalone path never constructs a relay interface (no such
construction event occurs, and the resulting handle holds none), and every
inherent bundle it produces contains the mocked validation-data entry and no
proof-backed parachain inherent. -/
theorem standalone_never_builds_relay_interface
    (cfg : Configuration) (env : Env) (now : Nat) (ch : MockRelayChannels)
    (h : NodeHandle) :
    ((start_instant_seal_node cfg env).2.all
        (fun e => !e.is_relay_interface) = true)
    ∧ ((start_instant_seal_node cfg env).1 = .ok h →
        h.relay_chain_interface = none)
    ∧ ((create_inherent_data_providers_instant_seal now ch).1.any
        InherentEntry.is_mocked_parachain = true)
    ∧ ((create_inherent_data_providers_instant_seal now ch).1.all
        (fun e => !e.is_parachain_inherent) = true) := by
  refine ⟨?_, ?_, rfl, rfl⟩
  · rcases h1 : env.new_partial_result with e1 | u1 <;>
    rcases h2 : env.build_network_result with e2 | u2 <;>
    rcases h3 : env.spawn_tasks_result with e3 | u3 <;>
    cases how : cfg.offchain_worker_enabled <;>
    simp only [start_instant_seal_node, new_partial, h1, h2, h3, how] <;>
    first
      | rfl
      | (split <;> rfl)
  · intro hok
    cases hrole : cfg.role <;>
    rcases h1 : env.new_partial_result with e1 | u1 <;>
    rcases h2 : env.build_network_result with e2 | u2 <;>
    rcases h3 : env.spawn_tasks_result with e3 | u3 <;>
    simp_all [start_instant_seal_node, new_partial, Role.is_authority] <;>
    subst_vars <;> rfl

/-- Witness for C4: in the concrete authority standalone run the returned
handle carries no relay interface. -/
theorem standalone_never_builds_relay_interface_witness :
    ({ tasks := [ConsensusTask.instantSeal],
       relay_chain_interface := none } : NodeHandle).relay_chain_interface
      = none :=
  (standalone_never_builds_relay_interface cfgAuthority env_ok 0 ⟨[], []⟩
    { tasks := [ConsensusTask.instantSeal],
      relay_chain_interface := none }).2.1 rfl

/-- C6: in every successfully produced bundle the time entry comes first; in
the collator bundle the proof-backed parachain inherent is second and the
nimbus inherent third, and in the standalone bundle the mocked parachain
entry is second. -/
theorem inherent_bundle_time_first_relay_second
    (create_at : RelayHash → PersistedValidationData → Option ParachainInherentData)
    (relay_parent : RelayHash) (validation_data : PersistedValidationData)
    (now : Nat) (b : List InherentEntry) (ch : MockRelayChannels) :
    (create_inherent_data_providers_collator create_at relay_parent
        validation_data now = .ok b →
      b[0]? = some (.timestamp now)
      ∧ (∃ pi, b[1]? = some (.parachain_inherent pi))
      ∧ b[2]? = some InherentEntry.nimbus
      ∧ b.length = 3)
    ∧ ((create_inherent_data_providers_instant_seal now ch).1[0]?
        = some (.timestamp now)
      ∧ (∃ m, (create_inherent_data_providers_instant_seal now ch).1[1]?
          = some (.mocked_parachain m))
      ∧ (create_inherent_data_providers_instant_seal now ch).1.length = 2) := by
  constructor
  · intro hok
    rcases hca : create_at relay_parent validation_data with _ | pi
    · simp [create_inherent_data_providers_collator, hca] at hok
    · simp only [create_inherent_data_providers_collator, hca] at hok
      injection hok with hb
      subst hb
      exact ⟨rfl, ⟨pi, rfl⟩, rfl, rfl⟩
  · exact ⟨rfl, ⟨_, rfl⟩, rfl⟩

/-- Witness for C6 at a concrete collator bundle. -/
theorem inherent_bundle_time_first_relay_second_witness :
    ([InherentEntry.timestamp 5, InherentEntry.parachain_inherent 9,
        InherentEntry.nimbus] : List InherentEntry)[0]?
      = some (InherentEntry.timestamp 5)
    ∧ (∃ pi, ([InherentEntry.timestamp 5, InherentEntry.parachain_inherent 9,
        InherentEntry.nimbus] : List InherentEntry)[1]?
      = some (InherentEntry.parachain_inherent pi))
    ∧ ([InherentEntry.timestamp 5, InherentEntry.parachain_inherent 9,
        InherentEntry.nimbus] : List InherentEntry)[2]?
      = some InherentEntry.nimbus
    ∧ ([InherentEntry.timestamp 5, InherentEntry.parachain_inherent 9,
        InherentEntry.nimbus] : List InherentEntry).length = 3 :=
  (inherent_bundle_time_first_relay_second (fun _ _ => some 9) 0 0 5
    [InherentEntry.timestamp 5, InherentEntry.parachain_inherent 9,
      InherentEntry.nimbus] ⟨[], []⟩).1 rfl

end Diora
